import Mathlib

/-!
Shallow embedding of the llm-router routing/verification engine
(src/routing/difficulty.py, src/routing/verifier.py, src/routing/router.py)
together with the backend contract (src/llm/base.py and its adapters).

Python strings are modelled as Lean `String` over their character lists;
Python floats are modelled as exact rationals; Python dicts returned by the
router are modelled as structures whose router-added keys are `Option`
fields so that key presence is expressible.
-/

namespace LLMRouterSpec

/-! ### String helpers (models of the Python string operations used) -/

/-- Model of Python `str.lower` (ASCII). -/
def lowerS (s : String) : String := String.mk (s.data.map Char.toLower)

/-- `matchesAt pat l`: the character list `l` starts with `pat`. -/
def matchesAt : List Char → List Char → Bool
  | [], _ => true
  | _ :: _, [] => false
  | a :: pat, c :: l => a == c && matchesAt pat l

/-- `containsSeq pat l`: `pat` occurs contiguously somewhere in `l`. -/
def containsSeq (pat : List Char) : List Char → Bool
  | [] => matchesAt pat []
  | c :: l => matchesAt pat (c :: l) || containsSeq pat l

/-- Model of the Python substring test `needle in haystack`. -/
def containsSub (haystack needle : String) : Bool := containsSeq needle.data haystack.data

/-- Model of Python `s.endswith(suf)`. -/
def endsWithS (s suf : String) : Bool := matchesAt suf.data.reverse s.data.reverse

/-- Model of Python `s.startswith(p)`. -/
def startsWithS (s p : String) : Bool := matchesAt p.data s.data

/-- Splitter on whitespace; `acc` holds the current word reversed. -/
def splitWsAux : List Char → List Char → List String
  | [], acc => if acc.isEmpty then [] else [String.mk acc.reverse]
  | c :: l, acc =>
    if c.isWhitespace then
      if acc.isEmpty then splitWsAux l [] else String.mk acc.reverse :: splitWsAux l []
    else splitWsAux l (c :: acc)

/-- Model of Python `s.split()`: maximal runs of non-whitespace characters,
with no empty words. -/
def wordsOf (s : String) : List String := splitWsAux s.data []

/-- Model of Python `s.strip()`. -/
def trimS (s : String) : String :=
  String.mk (((s.data.dropWhile Char.isWhitespace).reverse.dropWhile Char.isWhitespace).reverse)

def wordCount (s : String) : Nat := (wordsOf s).length

/-- Model of Python `s.count(c)` for a single character. -/
def countChar (s : String) (c : Char) : Nat := s.data.count c

/-- Regex word character, as in `\w` (ASCII). -/
def isWordChar (c : Char) : Bool := c.isAlphanum || c == '_'

/-- `wwAt w l` holds when `l` starts with the word `w` followed by a word
boundary (end of string or a non-word character). -/
def wwAt : List Char → List Char → Bool
  | [], [] => true
  | [], c :: _ => !(isWordChar c)
  | _ :: _, [] => false
  | a :: w, c :: l => a == c && wwAt w l

/-- Scan for a whole-word occurrence of `w`; the flag records whether the
previous character was a word character (no boundary there). -/
def hwwAux (w : List Char) : List Char → Bool → Bool
  | [], _ => false
  | c :: rest, prevW => ((!prevW) && wwAt w (c :: rest)) || hwwAux w rest (isWordChar c)

/-- Model of `re.search(r"\b" + w + r"\b", s)` for a word `w` made of word
characters: `w` occurs in `s` delimited by word boundaries. -/
def hasWholeWord (s w : String) : Bool := hwwAux w.data s.data false

/-- `roundTo d x` models Python `round(x, d)` in exact rational arithmetic. -/
def roundTo (d : Nat) (x : ℚ) : ℚ := (round (x * 10 ^ d) : ℚ) / 10 ^ d

/-! ### QueryDifficultyEstimator (src/routing/difficulty.py) -/

namespace QueryDifficultyEstimator

def EASY_KEYWORDS : List String :=
  ["what", "define", "definition", "list", "name", "who", "when", "where"]

def MEDIUM_KEYWORDS : List String :=
  ["explain", "describe", "summarize", "compare", "difference", "overview"]

def HARD_KEYWORDS : List String :=
  ["why", "how", "prove", "derive", "analyze", "reason", "justify",
   "evaluate", "critique", "implications"]

/-- `_length_score` of src/routing/difficulty.py. -/
def length_score (query : String) : ℚ :=
  let word_count := wordCount query
  if word_count ≤ 5 then 0.1
  else if word_count ≥ 30 then 1.0
  else ((word_count : ℚ) - 5) / 25

/-- `_keyword_score` of src/routing/difficulty.py. -/
def keyword_score (query : String) : ℚ :=
  let query_lower := lowerS query
  if HARD_KEYWORDS.any (fun k => containsSub query_lower k) then 1.0
  else if MEDIUM_KEYWORDS.any (fun k => containsSub query_lower k) then 0.5
  else if EASY_KEYWORDS.any (fun k => containsSub query_lower k) then 0.1
  else 0.3

/-- `_structure_score` of src/routing/difficulty.py. -/
def structure_score (query : String) : ℚ :=
  let s1 : ℚ := if countChar query '.' + countChar query '?' > 1 then 0.4 else 0
  let s2 : ℚ :=
    if ["and", "or", "vs", "versus", "while"].any (fun w => hasWholeWord (lowerS query) w)
    then 0.3 else 0
  let s3 : ℚ :=
    if ["if", "because", "therefore", "however"].any (fun w => hasWholeWord (lowerS query) w)
    then 0.3 else 0
  min (s1 + s2 + s3) 1.0

/-- The fixed multi-part evaluative phrase list of `estimate`. -/
def MULTI_PART_PHRASES : List String :=
  ["advantages and disadvantages", "pros and cons", "trade-offs",
   "implications", "limitations"]

/-- `estimate` of src/routing/difficulty.py. -/
def estimate (query : String) : ℚ :=
  let length := length_score query
  let keyword := keyword_score query
  let struct := structure_score query
  let difficulty := 0.25 * length + 0.5 * keyword + 0.25 * struct
  let q := lowerS query
  let difficulty :=
    if HARD_KEYWORDS.any (fun k => containsSub q k) then max difficulty 0.6 else difficulty
  let difficulty :=
    if MULTI_PART_PHRASES.any (fun p => containsSub q p) then max difficulty 0.5 else difficulty
  roundTo 3 (min difficulty 1.0)

end QueryDifficultyEstimator

/-! ### ResponseVerifier (src/routing/verifier.py) -/

namespace ResponseVerifier

/-- The apostrophe character, via its code point. -/
def apos : Char := Char.ofNat 39

/-- The fixed uncertainty phrase set of the verifier; the first entry is the
contraction of `i am` followed by `not sure`. -/
def UNCERTAINTY_PHRASES : List String :=
  [String.mk (['i', apos] ++ "m not sure".data),
   "i am not sure", "cannot determine", "unclear", "it depends", "might be", "may be"]

def RELEVANCE_FAIL : ℚ := 0.60

def RELEVANCE_WARN : ℚ := 0.70

/-- Failure tags modelling the reason strings appended by `verify`; the
similarity-carrying variants model the formatted reason strings. -/
inductive Reason where
  | truncated
  | uncertainty
  | lowRelevanceCoverage
  | lowRelevanceSimilarity (similarity : ℚ)
  | lowRelevanceHardAllowed (similarity : ℚ)
deriving DecidableEq, Repr

/-- `VerificationResult` dataclass of src/routing/verifier.py. -/
structure VerificationResult where
  passed : Bool
  reasons : List Reason
  truncated : Bool
  uncertainty : Bool
  low_relevance : Bool
deriving DecidableEq, Repr

/-- The optional external embedding collaborator: maps the query and the
answer summary to the cosine similarity of their embeddings, `none` when an
embedding call fails. This is the boundary model of `_embed` plus
`_cosine_similarity` (a network call and floating-point linear algebra). -/
def EmbedSim : Type := String → String → Option ℚ

/-- Verifier state: `embedding_client` is `none` when embeddings are
unavailable (no API key or import failure). -/
structure VerifierCtx where
  embedding_client : Option EmbedSim

/-- `_truncate_for_embedding` of src/routing/verifier.py. -/
def truncate_for_embedding (text : String) (max_chars : Nat := 500) : String :=
  String.mk (text.data.take max_chars)

def stop_words : List String :=
  ["the", "and", "or", "but", "for", "with", "from", "that", "this", "what", "how", "why"]

/-- `_basic_coverage` of src/routing/verifier.py. -/
def basic_coverage (query answer : String) : Bool :=
  let keywords := (wordsOf (lowerS query)).filter
    (fun w => w.length > 3 && !(stop_words.contains w))
  if keywords.isEmpty then true
  else
    let answer_lower := lowerS answer
    let hits := (keywords.filter (fun w => containsSub answer_lower w)).length
    decide (hits ≥ max 1 (keywords.length / 3))

/-- `_is_list_query` of src/routing/verifier.py. -/
def is_list_query (query : String) : Bool :=
  if query = "" then false
  else ["list", "name", "give", "mention"].any (fun w => startsWithS (lowerS query) w)

/-- `_check_relevance` of src/routing/verifier.py. The two branches of the
dual-threshold test are kept separate as in the source (they compute the
same predicate). -/
def check_relevance (ctx : VerifierCtx) (query answer : String) (difficulty : ℚ := 1.0) :
    Bool × ℚ :=
  match ctx.embedding_client with
  | none => (true, 1.0)
  | some client =>
    let answer_summary := truncate_for_embedding answer
    match client query answer_summary with
    | none => (true, 1.0)
    | some similarity =>
      let is_relevant :=
        if difficulty ≥ 0.6 then decide (similarity ≥ RELEVANCE_FAIL)
        else decide (similarity ≥ RELEVANCE_FAIL)
      (is_relevant, similarity)

def BAD_ENDINGS : List String :=
  [" by", " which", " that", " because", " such as",
   " including", " like", " for example", " and", " or", " but",
   " with", " from", " to", " in", " on", " at", " of", " the",
   " a", " an", " is", " are", " was", " were", " has", " have",
   " can", " could", " should", " would", " will", " may", " might"]

/-- `_is_semantically_incomplete` of src/routing/verifier.py. -/
def is_semantically_incomplete (answer : String) : Bool :=
  let text := lowerS (trimS answer)
  if endsWithS text "." || endsWithS text "!" || endsWithS text "?" then false
  else if BAD_ENDINGS.any (fun be => endsWithS text be) then true
  else false

/-- Python truthiness of the optional query argument: supplied and
nonempty. -/
def query_supplied : Option String → Bool
  | none => false
  | some q => !(q == "")

/-- `_is_list_query` lifted to the optional query. -/
def is_list_query_opt : Option String → Bool
  | none => false
  | some q => is_list_query q

/-- Step 1 of `verify`: the final value of the `truncated` flag, including
the list-query exemption (`if query and self._is_list_query(query)`) that
also removes the reason tag. -/
def truncated_flag (answer : String) (output_tokens max_tokens : Nat)
    (query : Option String) : Bool :=
  if output_tokens ≥ max_tokens then
    if is_semantically_incomplete answer then
      if query_supplied query && is_list_query_opt query then false else true
    else false
  else false

/-- Step 2 of `verify`: the uncertainty flag. -/
def uncertainty_flag (answer : String) : Bool :=
  let lower := lowerS answer
  UNCERTAINTY_PHRASES.any (fun p => containsSub lower p)

/-- Step 3 of `verify`: the low-relevance flag and the relevance reason tags
(the advisory hard-query tag is recorded without setting the flag). -/
def relevance_result (ctx : VerifierCtx) (answer : String) (query : Option String)
    (difficulty : ℚ) : Bool × List Reason :=
  match query with
  | none => (false, [])
  | some q =>
    if q ≠ "" ∧ difficulty ≥ 0.3 then
      if !(basic_coverage q answer) then (true, [Reason.lowRelevanceCoverage])
      else if difficulty < 0.6 then
        let r := check_relevance ctx q answer difficulty
        if !r.1 then (true, [Reason.lowRelevanceSimilarity r.2]) else (false, [])
      else
        let r := check_relevance ctx q answer difficulty
        if r.2 < RELEVANCE_WARN then (false, [Reason.lowRelevanceHardAllowed r.2])
        else (false, [])
    else (false, [])

/-- `verify` of src/routing/verifier.py. The three checks are computed by
the step functions above; reasons are accumulated in source order
(truncated, uncertainty, relevance). -/
def verify (ctx : VerifierCtx) (answer : String) (output_tokens max_tokens : Nat)
    (query : Option String := none) (difficulty : ℚ := 1.0) : VerificationResult :=
  let truncated := truncated_flag answer output_tokens max_tokens query
  let uncertainty := uncertainty_flag answer
  let rel := relevance_result ctx answer query difficulty
  let low_relevance := rel.1
  let reasons :=
    (if truncated then [Reason.truncated] else []) ++
    (if uncertainty then [Reason.uncertainty] else []) ++ rel.2
  let passed :=
    if truncated || uncertainty then false
    else if low_relevance then decide (difficulty ≥ 0.3)
    else true
  { passed := passed, reasons := reasons, truncated := truncated,
    uncertainty := uncertainty, low_relevance := low_relevance }

end ResponseVerifier

/-! ### LLMRouter (src/routing/router.py) over the backend contract
(src/llm/base.py) -/

namespace LLMRouter

open ResponseVerifier QueryDifficultyEstimator

/-- The result dictionary produced by a backend `generate` call
(src/llm/base.py). src/llm/local.py omits `cost_usd` while
src/llm/openai_llm.py always includes it; the `Option` models key
presence. -/
structure GenResult where
  text : String
  input_tokens : Nat
  output_tokens : Nat
  latency_ms : ℚ
  model : String
  device : String
  cost_usd : Option ℚ := none
deriving DecidableEq, Repr

/-- A generation backend: `gen` models `generate(prompt, max_tokens)` and
`default_max_tokens` the signature default used when `generate` is called
with no `max_tokens` argument (256 in src/llm/base.py and in both
adapters). -/
structure Backend where
  gen : String → Nat → GenResult
  default_max_tokens : Nat := 256

/-- Observable calls made during one `route` invocation, in order. A
`genRemote` with budget `none` models `generate(query)` called without a
`max_tokens` argument. -/
inductive Event where
  | genLocal (prompt : String) (maxTokens : Nat)
  | genRemote (prompt : String) (maxTokens : Option Nat)
  | verifyCall (answer : String) (outputTokens maxTokens : Nat)
deriving DecidableEq, Repr

def Event.isLocalGen : Event → Bool
  | .genLocal _ _ => true
  | .genRemote _ _ => false
  | .verifyCall _ _ _ => false

def Event.isRemoteGen : Event → Bool
  | .genLocal _ _ => false
  | .genRemote _ _ => true
  | .verifyCall _ _ _ => false

/-- Whether `route` raised (the single `raise ValueError` of the hard
path). -/
def isErr {α : Type} : Except String α → Bool
  | .error _ => true
  | .ok _ => false

/-- Model of the `verification` metadata string: `passed`, or
`failed: <joined reasons>`. -/
inductive VerificationNote where
  | passed
  | failed (reasons : List Reason)
deriving DecidableEq, Repr

/-- The enriched result dictionary returned by `route`. Keys the router
adds are `Option`-valued so that key presence is expressible; `cost_usd`
comes either from the backend dictionary or from the router. -/
structure EnrichedResult where
  text : String
  input_tokens : Nat
  output_tokens : Nat
  latency_ms : ℚ
  model : String
  device : String
  cost_usd : Option ℚ
  verification : Option VerificationNote
  difficulty : Option ℚ
  routing_decision : Option String
  cost_saved_usd : Option ℚ
  cost_saved : Option ℤ
deriving DecidableEq, Repr

/-- Relative cost units of src/routing/router.py. -/
def LOCAL_COST : ℤ := 1

def REMOTE_COST : ℤ := 20

/-- `_max_tokens_for_difficulty` of src/routing/router.py. -/
def max_tokens_for_difficulty (difficulty : ℚ) : Nat :=
  if difficulty < 0.3 then 128
  else if difficulty < 0.6 then 256
  else 512

/-- The `estimated_remote_cost` formula of src/routing/router.py. -/
def estimated_remote_cost (input_tokens output_tokens : Nat) : ℚ :=
  ((input_tokens : ℚ) / 1000) * 0.005 + ((output_tokens : ℚ) / 1000) * 0.015

/-- The identical `while True` regeneration loops of the easy and medium
paths of `route`: generate locally, verify, and on a failed verdict that is
truncated regenerate once with a doubled token budget while retry budget
remains. Recursion is on the remaining retry budget
(`max_retries - retry_count`, initially `max_retries = 1`). Returns the
final generation, its verdict, whether any retry happened
(`retry_count > 0`), and the calls made in order. -/
def localLoop (ctx : VerifierCtx) (local_llm : Backend) (query : String)
    (difficulty : ℚ) : Nat → Nat →
    GenResult × VerificationResult × Bool × List Event
  | current_max_tokens, 0 =>
    let result := local_llm.gen query current_max_tokens
    let verdict := verify ctx result.text result.output_tokens current_max_tokens
      (some query) difficulty
    let evs := [Event.genLocal query current_max_tokens,
                Event.verifyCall result.text result.output_tokens current_max_tokens]
    (result, verdict, false, evs)
  | current_max_tokens, n + 1 =>
    let result := local_llm.gen query current_max_tokens
    let verdict := verify ctx result.text result.output_tokens current_max_tokens
      (some query) difficulty
    let evs := [Event.genLocal query current_max_tokens,
                Event.verifyCall result.text result.output_tokens current_max_tokens]
    if verdict.passed then (result, verdict, false, evs)
    else if verdict.truncated then
      let again := localLoop ctx local_llm query difficulty (current_max_tokens * 2) n
      (again.1, again.2.1, true, evs ++ again.2.2.2)
    else (result, verdict, false, evs)

/-- `route` of src/routing/router.py, specialized to the only difficulty
estimator in the repository (`QueryDifficultyEstimator.estimate`). Returns
the enriched result, or the configuration error for hard queries with no
remote backend, together with the ordered list of backend and verifier
calls made during the invocation. -/
def route (ctx : VerifierCtx) (local_llm : Backend) (remote_llm : Option Backend)
    (query : String) : Except String EnrichedResult × List Event :=
  let difficulty := estimate query
  let max_tokens := max_tokens_for_difficulty difficulty
  if difficulty < 0.3 then
    let a := localLoop ctx local_llm query difficulty max_tokens 1
    let result := a.1
    let verdict := a.2.1
    let retried := a.2.2.1
    let evs := a.2.2.2
    let routing_decision := if retried && verdict.passed then "repaired" else "local"
    (Except.ok {
      text := result.text
      input_tokens := result.input_tokens
      output_tokens := result.output_tokens
      latency_ms := result.latency_ms
      model := result.model
      device := result.device
      cost_usd := some 0.0
      verification := some (if verdict.passed then .passed else .failed verdict.reasons)
      difficulty := some difficulty
      routing_decision := some routing_decision
      cost_saved_usd := some (roundTo 6
        (estimated_remote_cost result.input_tokens result.output_tokens))
      cost_saved := some (REMOTE_COST - LOCAL_COST) }, evs)
  else if difficulty < 0.6 then
    let a := localLoop ctx local_llm query difficulty max_tokens 1
    let local_result := a.1
    let verdict := a.2.1
    let retried := a.2.2.1
    let evs := a.2.2.2
    if verdict.passed then
      let routing_decision := if retried then "repaired" else "local"
      (Except.ok {
        text := local_result.text
        input_tokens := local_result.input_tokens
        output_tokens := local_result.output_tokens
        latency_ms := local_result.latency_ms
        model := local_result.model
        device := local_result.device
        cost_usd := some 0.0
        verification := some .passed
        difficulty := some difficulty
        routing_decision := some routing_decision
        cost_saved_usd := some (roundTo 6
          (estimated_remote_cost local_result.input_tokens local_result.output_tokens))
        cost_saved := some (REMOTE_COST - LOCAL_COST) }, evs)
    else
      match remote_llm with
      | some remote =>
        let remote_result := remote.gen query remote.default_max_tokens
        (Except.ok {
          text := remote_result.text
          input_tokens := remote_result.input_tokens
          output_tokens := remote_result.output_tokens
          latency_ms := remote_result.latency_ms
          model := remote_result.model
          device := remote_result.device
          cost_usd := remote_result.cost_usd
          verification := some (.failed verdict.reasons)
          difficulty := some difficulty
          routing_decision := some "escalated"
          cost_saved_usd := some 0.0
          cost_saved := some 0 }, evs ++ [Event.genRemote query none])
      | none =>
        (Except.ok {
          text := local_result.text
          input_tokens := local_result.input_tokens
          output_tokens := local_result.output_tokens
          latency_ms := local_result.latency_ms
          model := local_result.model
          device := local_result.device
          cost_usd := some 0.0
          verification := some (.failed verdict.reasons)
          difficulty := some difficulty
          routing_decision := some "local"
          cost_saved_usd := some 0.0
          cost_saved := some 0 }, evs)
  else
    match remote_llm with
    | none => (Except.error "Remote LLM not provided for hard queries", [])
    | some remote =>
      let remote_result := remote.gen query max_tokens
      let verdict := verify ctx remote_result.text remote_result.output_tokens max_tokens
        (some query) difficulty
      (Except.ok {
        text := remote_result.text
        input_tokens := remote_result.input_tokens
        output_tokens := remote_result.output_tokens
        latency_ms := remote_result.latency_ms
        model := remote_result.model
        device := remote_result.device
        cost_usd := remote_result.cost_usd
        verification := some (if verdict.passed then .passed else .failed verdict.reasons)
        difficulty := some difficulty
        routing_decision := some "remote"
        cost_saved_usd := some 0.0
        cost_saved := some 0 },
       [Event.genRemote query (some max_tokens),
        Event.verifyCall remote_result.text remote_result.output_tokens max_tokens])

end LLMRouter

/-! ### Lemmas about the verifier -/

namespace ResponseVerifier

lemma verify_truncated (ctx : VerifierCtx) (a : String) (ot mt : Nat) (q : Option String)
    (d : ℚ) : (verify ctx a ot mt q d).truncated = truncated_flag a ot mt q := rfl

lemma verify_uncertainty (ctx : VerifierCtx) (a : String) (ot mt : Nat) (q : Option String)
    (d : ℚ) : (verify ctx a ot mt q d).uncertainty = uncertainty_flag a := rfl

lemma verify_low_relevance (ctx : VerifierCtx) (a : String) (ot mt : Nat) (q : Option String)
    (d : ℚ) : (verify ctx a ot mt q d).low_relevance = (relevance_result ctx a q d).1 := rfl

lemma verify_passed (ctx : VerifierCtx) (a : String) (ot mt : Nat) (q : Option String)
    (d : ℚ) :
    (verify ctx a ot mt q d).passed =
      (if truncated_flag a ot mt q || uncertainty_flag a then false
       else if (relevance_result ctx a q d).1 then decide (d ≥ 0.3) else true) := rfl

/-- The low-relevance flag is only ever set when a nonempty query was
supplied and the difficulty is at least 0.3. -/
lemma relevance_result_true_imp (ctx : VerifierCtx) (a : String) (query : Option String)
    (d : ℚ) :
    (relevance_result ctx a query d).1 = true →
    ∃ q, query = some q ∧ q ≠ "" ∧ 0.3 ≤ d := by
  cases query with
  | none => simp [relevance_result]
  | some q =>
    by_cases hc : q ≠ "" ∧ d ≥ 0.3
    · intro _; exact ⟨q, rfl, hc.1, hc.2⟩
    · simp only [relevance_result, if_neg hc]
      intro h; cases h

lemma is_list_query_empty : is_list_query "" = false := rfl

/-- The truthiness guard is absorbed by the list test, because the empty
query is never list-style. -/
lemma supplied_and_list (q : Option String) :
    (query_supplied q && is_list_query_opt q) = is_list_query_opt q := by
  cases q with
  | none => rfl
  | some s =>
    by_cases he : s = ""
    · subst he; rfl
    · simp [query_supplied, he]

/-- The final truncated flag, characterized. -/
lemma truncated_flag_iff (a : String) (ot mt : Nat) (q : Option String) :
    truncated_flag a ot mt q = true ↔
      (mt ≤ ot ∧ is_semantically_incomplete a = true ∧ is_list_query_opt q = false) := by
  unfold truncated_flag
  rw [supplied_and_list]
  by_cases h1 : ot ≥ mt
  · rw [if_pos h1]
    by_cases h2 : is_semantically_incomplete a = true
    · rw [if_pos h2]
      cases hl : is_list_query_opt q
      · simp [h1, h2, hl]
      · simp [h1, h2, hl]
    · rw [if_neg h2]
      simp only [Bool.not_eq_true] at h2
      simp [h2]
  · rw [if_neg h1]
    simp [h1]

/-- The semantic-incompleteness test, characterized. -/
lemma is_semantically_incomplete_iff (a : String) :
    is_semantically_incomplete a = true ↔
      (endsWithS (lowerS (trimS a)) "." = false ∧
       endsWithS (lowerS (trimS a)) "!" = false ∧
       endsWithS (lowerS (trimS a)) "?" = false ∧
       BAD_ENDINGS.any (fun be => endsWithS (lowerS (trimS a)) be) = true) := by
  unfold is_semantically_incomplete
  by_cases h1 : (endsWithS (lowerS (trimS a)) "." || endsWithS (lowerS (trimS a)) "!"
      || endsWithS (lowerS (trimS a)) "?") = true
  · rw [if_pos h1]
    simp only [Bool.or_eq_true] at h1
    constructor
    · intro h; exact Bool.noConfusion h
    · rintro ⟨hd, he, hq, _⟩
      rcases h1 with (h | h) | h
      · rw [hd] at h; exact Bool.noConfusion h
      · rw [he] at h; exact Bool.noConfusion h
      · rw [hq] at h; exact Bool.noConfusion h
  · rw [if_neg h1]
    simp only [Bool.or_eq_true, not_or, Bool.not_eq_true] at h1
    obtain ⟨⟨hd, he⟩, hq⟩ := h1
    by_cases h2 : BAD_ENDINGS.any (fun be => endsWithS (lowerS (trimS a)) be) = true
    · rw [if_pos h2]
      simp [hd, he, hq, h2]
    · rw [if_neg h2]
      simp only [Bool.not_eq_true] at h2
      simp [hd, he, hq, h2]

end ResponseVerifier

/-! ### Lemmas about the router -/

namespace LLMRouter

open ResponseVerifier QueryDifficultyEstimator

lemma max_tokens_easy {d : ℚ} (h : d < 0.3) : max_tokens_for_difficulty d = 128 :=
  if_pos h

lemma max_tokens_medium {d : ℚ} (h1 : ¬ d < 0.3) (h2 : d < 0.6) :
    max_tokens_for_difficulty d = 256 := by
  unfold max_tokens_for_difficulty
  rw [if_neg h1, if_pos h2]

lemma not_lt_03_of_not_lt_06 {d : ℚ} (h2 : ¬ d < 0.6) : ¬ d < 0.3 :=
  fun h => h2 (h.trans (by norm_num))

lemma max_tokens_hard {d : ℚ} (h2 : ¬ d < 0.6) : max_tokens_for_difficulty d = 512 := by
  unfold max_tokens_for_difficulty
  rw [if_neg (not_lt_03_of_not_lt_06 h2), if_neg h2]

/-- The local regeneration loop calls only the local backend. -/
lemma localLoop_trace_no_remote (ctx : VerifierCtx) (lcl : Backend) (q : String) (d : ℚ)
    (r : Nat) : ∀ cmt : Nat,
    ((localLoop ctx lcl q d cmt r).2.2.2).filter Event.isRemoteGen = [] := by
  induction r with
  | zero =>
    intro cmt
    simp [localLoop, Event.isRemoteGen]
  | succ n ih =>
    intro cmt
    simp only [localLoop]
    split
    · simp [Event.isRemoteGen]
    · split
      · simp [Event.isRemoteGen, List.filter_append, ih (cmt * 2)]
      · simp [Event.isRemoteGen]

/-- The local regeneration loop with retry budget `r` performs at most
`r + 1` local generations. -/
lemma localLoop_trace_local_count (ctx : VerifierCtx) (lcl : Backend) (q : String) (d : ℚ)
    (r : Nat) : ∀ cmt : Nat,
    (((localLoop ctx lcl q d cmt r).2.2.2).filter Event.isLocalGen).length ≤ r + 1 := by
  induction r with
  | zero =>
    intro cmt
    simp [localLoop, Event.isLocalGen, List.filter]
  | succ n ih =>
    intro cmt
    simp only [localLoop]
    split
    · simp [Event.isLocalGen, List.filter]
    · split
      · have h := ih (cmt * 2)
        simp only [List.filter_append]
        simp [Event.isLocalGen, List.filter]
        omega
      · simp [Event.isLocalGen, List.filter]

/-- The easy branch of `route`, in closed form. -/
lemma route_easy_eq (ctx : VerifierCtx) (lcl : Backend) (rem : Option Backend)
    (query : String) (h : estimate query < 0.3) :
    route ctx lcl rem query =
      (let a := localLoop ctx lcl query (estimate query) 128 1
       (Except.ok {
         text := a.1.text
         input_tokens := a.1.input_tokens
         output_tokens := a.1.output_tokens
         latency_ms := a.1.latency_ms
         model := a.1.model
         device := a.1.device
         cost_usd := some 0.0
         verification := some (if a.2.1.passed then .passed else .failed a.2.1.reasons)
         difficulty := some (estimate query)
         routing_decision := some (if a.2.2.1 && a.2.1.passed then "repaired" else "local")
         cost_saved_usd := some (roundTo 6
           (estimated_remote_cost a.1.input_tokens a.1.output_tokens))
         cost_saved := some (REMOTE_COST - LOCAL_COST) }, a.2.2.2)) := by
  simp only [route, max_tokens_easy h, if_pos h]

/-- The medium branch of `route` when the final verdict passed. -/
lemma route_medium_passed_eq (ctx : VerifierCtx) (lcl : Backend) (rem : Option Backend)
    (query : String) (h1 : ¬ estimate query < 0.3) (h2 : estimate query < 0.6)
    (hp : (localLoop ctx lcl query (estimate query) 256 1).2.1.passed = true) :
    route ctx lcl rem query =
      (let a := localLoop ctx lcl query (estimate query) 256 1
       (Except.ok {
         text := a.1.text
         input_tokens := a.1.input_tokens
         output_tokens := a.1.output_tokens
         latency_ms := a.1.latency_ms
         model := a.1.model
         device := a.1.device
         cost_usd := some 0.0
         verification := some .passed
         difficulty := some (estimate query)
         routing_decision := some (if a.2.2.1 then "repaired" else "local")
         cost_saved_usd := some (roundTo 6
           (estimated_remote_cost a.1.input_tokens a.1.output_tokens))
         cost_saved := some (REMOTE_COST - LOCAL_COST) }, a.2.2.2)) := by
  simp only [route, max_tokens_medium h1 h2, if_neg h1, if_pos h2, hp, if_true]

/-- The medium branch of `route` when the final verdict failed and a remote
backend exists: escalate. -/
lemma route_medium_failed_some_eq (ctx : VerifierCtx) (lcl b : Backend)
    (query : String) (h1 : ¬ estimate query < 0.3) (h2 : estimate query < 0.6)
    (hp : (localLoop ctx lcl query (estimate query) 256 1).2.1.passed = false) :
    route ctx lcl (some b) query =
      (let a := localLoop ctx lcl query (estimate query) 256 1
       let remote_result := b.gen query b.default_max_tokens
       (Except.ok {
         text := remote_result.text
         input_tokens := remote_result.input_tokens
         output_tokens := remote_result.output_tokens
         latency_ms := remote_result.latency_ms
         model := remote_result.model
         device := remote_result.device
         cost_usd := remote_result.cost_usd
         verification := some (.failed a.2.1.reasons)
         difficulty := some (estimate query)
         routing_decision := some "escalated"
         cost_saved_usd := some 0.0
         cost_saved := some 0 }, a.2.2.2 ++ [Event.genRemote query none])) := by
  simp only [route, max_tokens_medium h1 h2, if_neg h1, if_pos h2, hp, Bool.false_eq_true,
    if_false]

/-- The medium branch of `route` when the final verdict failed and no
remote backend exists: degraded mode. -/
lemma route_medium_failed_none_eq (ctx : VerifierCtx) (lcl : Backend)
    (query : String) (h1 : ¬ estimate query < 0.3) (h2 : estimate query < 0.6)
    (hp : (localLoop ctx lcl query (estimate query) 256 1).2.1.passed = false) :
    route ctx lcl none query =
      (let a := localLoop ctx lcl query (estimate query) 256 1
       (Except.ok {
         text := a.1.text
         input_tokens := a.1.input_tokens
         output_tokens := a.1.output_tokens
         latency_ms := a.1.latency_ms
         model := a.1.model
         device := a.1.device
         cost_usd := some 0.0
         verification := some (.failed a.2.1.reasons)
         difficulty := some (estimate query)
         routing_decision := some "local"
         cost_saved_usd := some 0.0
         cost_saved := some 0 }, a.2.2.2)) := by
  simp only [route, max_tokens_medium h1 h2, if_neg h1, if_pos h2, hp, Bool.false_eq_true,
    if_false]

/-- The hard branch of `route` with a remote backend. -/
lemma route_hard_some_eq (ctx : VerifierCtx) (lcl b : Backend) (query : String)
    (h2 : ¬ estimate query < 0.6) :
    route ctx lcl (some b) query =
      (let remote_result := b.gen query 512
       let verdict := verify ctx remote_result.text remote_result.output_tokens 512
         (some query) (estimate query)
       (Except.ok {
         text := remote_result.text
         input_tokens := remote_result.input_tokens
         output_tokens := remote_result.output_tokens
         latency_ms := remote_result.latency_ms
         model := remote_result.model
         device := remote_result.device
         cost_usd := remote_result.cost_usd
         verification := some (if verdict.passed then .passed else .failed verdict.reasons)
         difficulty := some (estimate query)
         routing_decision := some "remote"
         cost_saved_usd := some 0.0
         cost_saved := some 0 },
        [Event.genRemote query (some 512),
         Event.verifyCall remote_result.text remote_result.output_tokens 512])) := by
  simp only [route, max_tokens_hard h2, if_neg (not_lt_03_of_not_lt_06 h2), if_neg h2]

/-- The hard branch of `route` with no remote backend: configuration
error, no calls. -/
lemma route_hard_none_eq (ctx : VerifierCtx) (lcl : Backend) (query : String)
    (h2 : ¬ estimate query < 0.6) :
    route ctx lcl none query =
      (Except.error "Remote LLM not provided for hard queries", []) := by
  simp only [route, max_tokens_hard h2, if_neg (not_lt_03_of_not_lt_06 h2), if_neg h2]

end LLMRouter

/-! ### Claim theorems -/

open QueryDifficultyEstimator ResponseVerifier LLMRouter

/-- C1: for every query on which `route` is called, if the estimated
difficulty is below 0.3 the remote backend is never invoked during that
call, and if it is at least 0.6 only the remote backend is invoked (the
local backend is never called). -/
theorem C1_difficulty_thresholds_gate_backends (ctx : VerifierCtx) (lcl : Backend)
    (rem : Option Backend) (query : String) :
    (estimate query < 0.3 →
      ((route ctx lcl rem query).2).filter Event.isRemoteGen = []) ∧
    (0.6 ≤ estimate query →
      ((route ctx lcl rem query).2).filter Event.isLocalGen = []) := by
  constructor
  · intro h
    rw [route_easy_eq ctx lcl rem query h]
    exact localLoop_trace_no_remote ctx lcl query (estimate query) 1 128
  · intro h
    have h2 : ¬ estimate query < 0.6 := not_lt.mpr h
    cases rem with
    | none => rw [route_hard_none_eq ctx lcl query h2]; rfl
    | some b =>
      rw [route_hard_some_eq ctx lcl b query h2]
      simp [Event.isLocalGen]

/-- C5: a single `route` call invokes the local backend at most twice (the
initial attempt plus at most one regeneration); the regeneration loop is a
total function, so it always terminates. -/
theorem C5_local_backend_called_at_most_twice (ctx : VerifierCtx) (lcl : Backend)
    (rem : Option Backend) (query : String) :
    (((route ctx lcl rem query).2).filter Event.isLocalGen).length ≤ 2 := by
  by_cases h : estimate query < 0.3
  · rw [route_easy_eq ctx lcl rem query h]
    exact localLoop_trace_local_count ctx lcl query (estimate query) 1 128
  · by_cases h2 : estimate query < 0.6
    · cases hp : (localLoop ctx lcl query (estimate query) 256 1).2.1.passed with
      | true =>
        rw [route_medium_passed_eq ctx lcl rem query h h2 hp]
        exact localLoop_trace_local_count ctx lcl query (estimate query) 1 256
      | false =>
        cases rem with
        | none =>
          rw [route_medium_failed_none_eq ctx lcl query h h2 hp]
          exact localLoop_trace_local_count ctx lcl query (estimate query) 1 256
        | some b =>
          rw [route_medium_failed_some_eq ctx lcl b query h h2 hp]
          have hc := localLoop_trace_local_count ctx lcl query (estimate query) 1 256
          simp only [List.filter_append]
          simp [Event.isLocalGen, List.filter]
          omega
    · cases rem with
      | none => rw [route_hard_none_eq ctx lcl query h2]; simp
      | some b =>
        rw [route_hard_some_eq ctx lcl b query h2]
        simp [Event.isLocalGen, List.filter]

/-- C2: `route` raises the configuration error exactly when the difficulty
is at least 0.6 and no remote backend is configured; a medium-difficulty
query whose final verdict fails with no remote backend configured does not
raise: it returns the local result tagged `local` with zero savings
(degraded mode). -/
theorem C2_config_error_iff_hard_without_remote (ctx : VerifierCtx) (lcl : Backend)
    (rem : Option Backend) (query : String) :
    (isErr (route ctx lcl rem query).1 = true ↔ (0.6 ≤ estimate query ∧ rem = none)) ∧
    (0.3 ≤ estimate query → estimate query < 0.6 → rem = none →
      (localLoop ctx lcl query (estimate query) 256 1).2.1.passed = false →
      ((route ctx lcl rem query).1).toOption.map
          (fun r => (r.text, r.routing_decision, r.cost_saved_usd))
        = some ((localLoop ctx lcl query (estimate query) 256 1).1.text,
                some "local", some 0.0)) := by
  constructor
  · by_cases h : estimate query < 0.3
    · rw [route_easy_eq ctx lcl rem query h]
      simp only [isErr, Bool.false_eq_true, false_iff, not_and]
      intro h06
      exact absurd (h06.trans_lt h) (by norm_num)
    · by_cases h2 : estimate query < 0.6
      · cases hp : (localLoop ctx lcl query (estimate query) 256 1).2.1.passed with
        | true =>
          rw [route_medium_passed_eq ctx lcl rem query h h2 hp]
          simp only [isErr, Bool.false_eq_true, false_iff, not_and]
          intro h06
          exact absurd (h06.trans_lt h2) (by norm_num)
        | false =>
          cases rem with
          | none =>
            rw [route_medium_failed_none_eq ctx lcl query h h2 hp]
            simp only [isErr, Bool.false_eq_true, false_iff, not_and]
            intro h06
            exact absurd (h06.trans_lt h2) (by norm_num)
          | some b =>
            rw [route_medium_failed_some_eq ctx lcl b query h h2 hp]
            simp [isErr]
      · cases rem with
        | none =>
          rw [route_hard_none_eq ctx lcl query h2]
          simp [isErr, not_lt.mp h2]
        | some b =>
          rw [route_hard_some_eq ctx lcl b query h2]
          simp [isErr]
  · intro h03 h2 hrem hp
    subst hrem
    rw [route_medium_failed_none_eq ctx lcl query (not_lt.mpr h03) h2 hp]
    rfl

/-- C10: when a medium-difficulty query escalates, the remote backend is
called without a token-budget argument (so its signature default of 256 is
used, not the difficulty-derived or doubled budget), and the escalated
remote answer is the last event of the call: it is never passed to the
verifier. -/
theorem C10_escalation_uses_default_budget_and_skips_verification
    (ctx : VerifierCtx) (lcl b : Backend) (query : String)
    (hd : b.default_max_tokens = 256)
    (h1 : 0.3 ≤ estimate query) (h2 : estimate query < 0.6)
    (hfail : (localLoop ctx lcl query (estimate query) 256 1).2.1.passed = false) :
    (route ctx lcl (some b) query).2
      = (localLoop ctx lcl query (estimate query) 256 1).2.2.2
        ++ [Event.genRemote query none] ∧
    ((route ctx lcl (some b) query).1).toOption.map
        (fun r => (r.text, r.input_tokens, r.output_tokens, r.routing_decision))
      = some ((b.gen query 256).text, (b.gen query 256).input_tokens,
              (b.gen query 256).output_tokens, some "escalated") := by
  rw [route_medium_failed_some_eq ctx lcl b query (not_lt.mpr h1) h2 hfail]
  constructor
  · rfl
  · rw [hd]
    rfl

/-- C3: the verdict fails exactly when the truncated or uncertainty flag is
set; the low-relevance flag can only be set when a (nonempty) query is
supplied and the difficulty is at least 0.3; and low relevance as the only
set flag never fails a verdict. -/
theorem C3_passed_iff_no_fatal_flags (ctx : VerifierCtx) (a : String) (ot mt : Nat)
    (q : Option String) (d : ℚ) :
    ((verify ctx a ot mt q d).passed = false ↔
      ((verify ctx a ot mt q d).truncated = true ∨
       (verify ctx a ot mt q d).uncertainty = true)) ∧
    ((verify ctx a ot mt q d).low_relevance = true →
      ∃ s, q = some s ∧ s ≠ "" ∧ 0.3 ≤ d) ∧
    ((verify ctx a ot mt q d).low_relevance = true →
      (verify ctx a ot mt q d).truncated = false →
      (verify ctx a ot mt q d).uncertainty = false →
      (verify ctx a ot mt q d).passed = true) := by
  have hrel := relevance_result_true_imp ctx a q d
  refine ⟨?_, ?_, ?_⟩
  · rw [verify_passed, verify_truncated, verify_uncertainty]
    cases htf : truncated_flag a ot mt q with
    | true => simp [htf]
    | false =>
      cases huf : uncertainty_flag a with
      | true => simp [huf]
      | false =>
        cases hlr : (relevance_result ctx a q d).1 with
        | false => simp [hlr]
        | true =>
          obtain ⟨s, hq, hne, hd3⟩ := hrel hlr
          simp [hlr, hd3, decide_eq_true hd3]
  · rw [verify_low_relevance]
    exact fun h => hrel h
  · rw [verify_low_relevance, verify_passed, verify_truncated, verify_uncertainty]
    intro hlr htf huf
    obtain ⟨s, hq, hne, hd3⟩ := hrel hlr
    simp [htf, huf, hlr, decide_eq_true hd3]

/-- C4: the truncated flag is set exactly when the response used its whole
token budget, the (stripped, lowered) answer does not end in sentence
punctuation, it ends in one of the fixed dangling endings, and the query is
not list-style. -/
theorem C4_truncation_flag_characterization (ctx : VerifierCtx) (a : String) (ot mt : Nat)
    (q : Option String) (d : ℚ) :
    (verify ctx a ot mt q d).truncated = true ↔
      (mt ≤ ot ∧
       endsWithS (lowerS (trimS a)) "." = false ∧
       endsWithS (lowerS (trimS a)) "!" = false ∧
       endsWithS (lowerS (trimS a)) "?" = false ∧
       BAD_ENDINGS.any (fun be => endsWithS (lowerS (trimS a)) be) = true ∧
       is_list_query_opt q = false) := by
  rw [verify_truncated, truncated_flag_iff, is_semantically_incomplete_iff]
  tauto

/-- C7 (amended): results tagged `escalated` or `remote` carry zero
savings; on the easy path, and on the medium path when the final verdict
passed, the returned local result carries `cost_usd = 0` and
`cost_saved_usd` equal to the 6-decimal rounding of the estimated remote
cost of its own token counts, so their sum is that estimated remote cost.
(In medium degraded mode the local result is returned with zero savings
instead — see the counterexample.) -/
theorem C7_cost_accounting (ctx : VerifierCtx) (lcl : Backend) (rem : Option Backend)
    (query : String) :
    (∀ r, (route ctx lcl rem query).1 = Except.ok r →
      (r.routing_decision = some "escalated" ∨ r.routing_decision = some "remote") →
      r.cost_saved_usd = some 0.0) ∧
    (estimate query < 0.3 →
      ∀ r, (route ctx lcl rem query).1 = Except.ok r →
        r.cost_usd = some 0.0 ∧
        r.cost_saved_usd
          = some (roundTo 6 (estimated_remote_cost r.input_tokens r.output_tokens)) ∧
        r.cost_usd.getD 0 + r.cost_saved_usd.getD 0
          = roundTo 6 (estimated_remote_cost r.input_tokens r.output_tokens)) ∧
    (0.3 ≤ estimate query → estimate query < 0.6 →
      (localLoop ctx lcl query (estimate query) 256 1).2.1.passed = true →
      ∀ r, (route ctx lcl rem query).1 = Except.ok r →
        r.cost_usd = some 0.0 ∧
        r.cost_saved_usd
          = some (roundTo 6 (estimated_remote_cost r.input_tokens r.output_tokens)) ∧
        r.cost_usd.getD 0 + r.cost_saved_usd.getD 0
          = roundTo 6 (estimated_remote_cost r.input_tokens r.output_tokens)) := by
  refine ⟨?_, ?_, ?_⟩
  · intro r hr hdec
    by_cases h : estimate query < 0.3
    · rw [route_easy_eq ctx lcl rem query h] at hr
      simp only [Except.ok.injEq] at hr
      subst hr
      rcases hdec with hd | hd <;>
        · simp only [Option.some.injEq] at hd
          split at hd <;> simp at hd
    · by_cases h2 : estimate query < 0.6
      · cases hp : (localLoop ctx lcl query (estimate query) 256 1).2.1.passed with
        | true =>
          rw [route_medium_passed_eq ctx lcl rem query h h2 hp] at hr
          simp only [Except.ok.injEq] at hr
          subst hr
          rcases hdec with hd | hd <;>
            · simp only [Option.some.injEq] at hd
              split at hd <;> simp at hd
        | false =>
          cases rem with
          | none =>
            rw [route_medium_failed_none_eq ctx lcl query h h2 hp] at hr
            simp only [Except.ok.injEq] at hr
            subst hr
            rcases hdec with hd | hd <;> simp at hd
          | some b =>
            rw [route_medium_failed_some_eq ctx lcl b query h h2 hp] at hr
            simp only [Except.ok.injEq] at hr
            subst hr
            rfl
      · cases rem with
        | none =>
          rw [route_hard_none_eq ctx lcl query h2] at hr
          simp at hr
        | some b =>
          rw [route_hard_some_eq ctx lcl b query h2] at hr
          simp only [Except.ok.injEq] at hr
          subst hr
          rfl
  · intro h r hr
    rw [route_easy_eq ctx lcl rem query h] at hr
    simp only [Except.ok.injEq] at hr
    subst hr
    refine ⟨rfl, rfl, ?_⟩
    show (0.0 : ℚ) + roundTo 6 _ = roundTo 6 _
    norm_num
  · intro h03 h2 hp r hr
    rw [route_medium_passed_eq ctx lcl rem query (not_lt.mpr h03) h2 hp] at hr
    simp only [Except.ok.injEq] at hr
    subst hr
    refine ⟨rfl, rfl, ?_⟩
    show (0.0 : ℚ) + roundTo 6 _ = roundTo 6 _
    norm_num

/-- C9: every result returned by `route` carries exactly one routing
decision tag drawn from local, repaired, escalated, remote; and (given the
remote adapter contract that its results always carry `cost_usd`, as
src/llm/openai_llm.py does) the `cost_usd` and `cost_saved_usd` keys are
present on every return path. -/
theorem C9_result_always_tagged_and_costed (ctx : VerifierCtx) (lcl : Backend)
    (rem : Option Backend) (query : String)
    (hrem : ∀ b, rem = some b → ∀ p t, ((b.gen p t).cost_usd).isSome = true) :
    ∀ r, (route ctx lcl rem query).1 = Except.ok r →
      (∃ dec, r.routing_decision = some dec ∧
        (dec = "local" ∨ dec = "repaired" ∨ dec = "escalated" ∨ dec = "remote")) ∧
      r.cost_usd.isSome = true ∧ r.cost_saved_usd.isSome = true := by
  intro r hr
  by_cases h : estimate query < 0.3
  · rw [route_easy_eq ctx lcl rem query h] at hr
    simp only [Except.ok.injEq] at hr
    subst hr
    refine ⟨⟨_, rfl, ?_⟩, rfl, rfl⟩
    split
    · right; left; rfl
    · left; rfl
  · by_cases h2 : estimate query < 0.6
    · cases hp : (localLoop ctx lcl query (estimate query) 256 1).2.1.passed with
      | true =>
        rw [route_medium_passed_eq ctx lcl rem query h h2 hp] at hr
        simp only [Except.ok.injEq] at hr
        subst hr
        refine ⟨⟨_, rfl, ?_⟩, rfl, rfl⟩
        split
        · right; left; rfl
        · left; rfl
      | false =>
        cases rem with
        | none =>
          rw [route_medium_failed_none_eq ctx lcl query h h2 hp] at hr
          simp only [Except.ok.injEq] at hr
          subst hr
          exact ⟨⟨"local", rfl, Or.inl rfl⟩, rfl, rfl⟩
        | some b =>
          rw [route_medium_failed_some_eq ctx lcl b query h h2 hp] at hr
          simp only [Except.ok.injEq] at hr
          subst hr
          exact ⟨⟨"escalated", rfl, Or.inr (Or.inr (Or.inl rfl))⟩,
            hrem b rfl query b.default_max_tokens, rfl⟩
    · cases rem with
      | none =>
        rw [route_hard_none_eq ctx lcl query h2] at hr
        simp at hr
      | some b =>
        rw [route_hard_some_eq ctx lcl b query h2] at hr
        simp only [Except.ok.injEq] at hr
        subst hr
        exact ⟨⟨"remote", rfl, Or.inr (Or.inr (Or.inr rfl))⟩,
          hrem b rfl query 512, rfl⟩

/-! ### Rounding and score-bound lemmas for the estimator claims -/

lemma round_q_mono {x y : ℚ} (h : x ≤ y) : round x ≤ round y := by
  rw [round_eq, round_eq]
  exact Int.floor_le_floor (by linarith)

lemma roundTo_mono (d : Nat) {x y : ℚ} (h : x ≤ y) : roundTo d x ≤ roundTo d y := by
  unfold roundTo
  have hp : (0:ℚ) < 10 ^ d := by positivity
  rw [div_le_div_iff_of_pos_right hp]
  exact_mod_cast round_q_mono (mul_le_mul_of_nonneg_right h hp.le)

lemma roundTo_three_zero : roundTo 3 (0:ℚ) = 0 := by
  unfold roundTo
  simp

lemma roundTo_three_one : roundTo 3 (1:ℚ) = 1 := by
  unfold roundTo
  rw [one_mul, show ((10:ℚ)^3) = ((1000:ℤ):ℚ) by norm_num, round_intCast]
  norm_num

lemma roundTo_three_point_six : roundTo 3 (0.6:ℚ) = 0.6 := by
  unfold roundTo
  rw [show (0.6:ℚ) * 10^3 = ((600:ℤ):ℚ) by norm_num, round_intCast]
  norm_num

lemma roundTo_three_den (x : ℚ) : ∃ z : ℤ, roundTo 3 x = (z : ℚ) / 1000 :=
  ⟨round (x * 10 ^ 3), by unfold roundTo; norm_num⟩

namespace QueryDifficultyEstimator

lemma length_score_nonneg (query : String) : 0 ≤ length_score query := by
  simp only [length_score]
  split
  · norm_num
  · split
    · norm_num
    · rename_i h1 _
      have h5 : 5 < wordCount query := Nat.lt_of_not_le h1
      have h5q : (5:ℚ) < (wordCount query : ℚ) := by exact_mod_cast h5
      have hs : 0 ≤ (wordCount query : ℚ) - 5 := by linarith
      exact div_nonneg hs (by norm_num)

lemma keyword_score_nonneg (query : String) : 0 ≤ keyword_score query := by
  simp only [keyword_score]
  split
  · norm_num
  · split
    · norm_num
    · split <;> norm_num

lemma structure_score_nonneg (query : String) : 0 ≤ structure_score query := by
  simp only [structure_score]
  refine le_min ?_ (by norm_num)
  refine add_nonneg (add_nonneg ?_ ?_) ?_ <;> (split <;> norm_num)

lemma estimate_nonneg (query : String) : 0 ≤ estimate query := by
  simp only [estimate]
  refine le_trans (le_of_eq roundTo_three_zero.symm) (roundTo_mono 3 ?_)
  refine le_min ?_ (by norm_num)
  have hbase : (0:ℚ) ≤ 0.25 * length_score query + 0.5 * keyword_score query
      + 0.25 * structure_score query := by
    have l1 := length_score_nonneg query
    have l2 := keyword_score_nonneg query
    have l3 := structure_score_nonneg query
    linarith
  split
  · exact le_trans (by norm_num : (0:ℚ) ≤ 0.5) (le_max_right _ _)
  · split
    · exact le_trans hbase (le_max_left _ _)
    · exact hbase

lemma estimate_le_one (query : String) : estimate query ≤ 1 := by
  simp only [estimate]
  rw [show (1.0:ℚ) = 1 from by norm_num]
  exact le_trans (roundTo_mono 3 (min_le_right _ _)) (le_of_eq roundTo_three_one)

end QueryDifficultyEstimator

/-! ### Substring lemmas for the keyword-floor claim -/

lemma matchesAt_self (l : List Char) : matchesAt l l = true := by
  induction l with
  | nil => rfl
  | cons c t ih => simp [matchesAt, ih]

lemma containsSeq_self (l : List Char) : containsSeq l l = true := by
  cases l with
  | nil => rfl
  | cons c t => simp [containsSeq, matchesAt_self]

lemma containsSeq_append_right (pat l2 : List Char) (h : containsSeq pat l2 = true) :
    ∀ l1 : List Char, containsSeq pat (l1 ++ l2) = true := by
  intro l1
  induction l1 with
  | nil => simpa using h
  | cons c t ih => simp [containsSeq, ih]

/-- Appending a lowercase word after a space makes it a substring of the
lowered result. -/
lemma containsSub_append_word (q k : String)
    (hk : k.data.map Char.toLower = k.data) :
    containsSub (lowerS (q ++ " " ++ k)) k = true := by
  show containsSeq k.data (((q ++ " " ++ k).data).map Char.toLower) = true
  rw [String.data_append, String.data_append]
  rw [show (" " : String).data = [' '] from rfl]
  rw [List.append_assoc, List.map_append, List.map_append, hk]
  rw [show ([' '].map Char.toLower) = [' '] from rfl]
  rw [← List.append_assoc]
  exact containsSeq_append_right k.data k.data (containsSeq_self k.data) _

/-- C6: `estimate` returns the weighted sum of the three sub-scores with
the HARD-keyword floor (0.6) and then the multi-part-phrase floor (0.5)
applied in that order, capped at 1.0 and rounded to 3 decimals; the result
is always in the interval from 0 to 1 and is an integer multiple of
1/1000. -/
theorem C6_estimate_formula_range_rounding (query : String) :
    estimate query =
      roundTo 3 (min
        (if (MULTI_PART_PHRASES.any fun p => containsSub (lowerS query) p) = true then
          max (if (HARD_KEYWORDS.any fun k => containsSub (lowerS query) k) = true then
                max (0.25 * length_score query + 0.5 * keyword_score query
                  + 0.25 * structure_score query) 0.6
              else 0.25 * length_score query + 0.5 * keyword_score query
                  + 0.25 * structure_score query) 0.5
         else (if (HARD_KEYWORDS.any fun k => containsSub (lowerS query) k) = true then
                max (0.25 * length_score query + 0.5 * keyword_score query
                  + 0.25 * structure_score query) 0.6
              else 0.25 * length_score query + 0.5 * keyword_score query
                  + 0.25 * structure_score query)) 1.0) ∧
    0 ≤ estimate query ∧ estimate query ≤ 1 ∧
    ∃ z : ℤ, estimate query = (z : ℚ) / 1000 :=
  ⟨rfl, estimate_nonneg query, estimate_le_one query, roundTo_three_den _⟩

/-- C8 (amended): appending a HARD keyword (separated by a space) to any
query forces the resulting difficulty to at least 0.6; consequently the
difficulty never decreases when it was at most 0.6. (It can decrease when
the original difficulty exceeded 0.6, because the extra word can lower the
length score — see the counterexample.) -/
theorem C8_hard_keyword_floor (query k : String) (hk : k ∈ HARD_KEYWORDS) :
    0.6 ≤ estimate (query ++ " " ++ k) ∧
    (estimate query ≤ 0.6 → estimate query ≤ estimate (query ++ " " ++ k)) := by
  have hlow : k.data.map Char.toLower = k.data := by
    fin_cases hk <;> decide
  have hcs : containsSub (lowerS (query ++ " " ++ k)) k = true :=
    containsSub_append_word query k hlow
  have hany : (HARD_KEYWORDS.any fun s => containsSub (lowerS (query ++ " " ++ k)) s)
      = true := List.any_eq_true.mpr ⟨k, hk, hcs⟩
  have hmain : 0.6 ≤ estimate (query ++ " " ++ k) := by
    simp only [estimate, hany, if_true]
    refine le_trans (le_of_eq roundTo_three_point_six.symm) (roundTo_mono 3 ?_)
    refine le_min ?_ (by norm_num)
    split
    · exact le_trans (le_max_right _ _) (le_max_left _ _)
    · exact le_max_right _ _
  exact ⟨hmain, fun hle => le_trans hle hmain⟩

section ConcreteEvaluation

attribute [local semireducible] Rat.add Rat.mul Rat.sub Rat.inv Rat.ofScientific

/-- Fixture: verifier with the embedding capability unavailable. -/
def ctx0 : VerifierCtx := ⟨none⟩

/-- Fixture: a deterministic local backend (constant answer, as a
quantized-model adapter whose sampling temperature is 0). -/
def lcl0 : Backend :=
  ⟨fun _ _ => ⟨"It depends.", 100, 50, 10, "phi-2", "metal/cpu", none⟩, 256⟩

/-- Fixture: a deterministic remote backend that, like the OpenAI adapter,
always reports its metered cost. -/
def rem0 : Backend :=
  ⟨fun _ _ => ⟨"Remote answer.", 120, 80, 500, "gpt-4o", "openai_api", some 0.0018⟩, 256⟩

/-- The enriched result that `route ctx0 lcl0 (some rem0) "What is
Python?"` returns (easy path, verdict failed on uncertainty, returned
anyway). -/
def easyRouteResult : EnrichedResult :=
  { text := "It depends.", input_tokens := 100, output_tokens := 50, latency_ms := 10,
    model := "phi-2", device := "metal/cpu", cost_usd := some 0.0,
    verification := some (.failed [.uncertainty]), difficulty := some 0.075,
    routing_decision := some "local", cost_saved_usd := some 0.00125,
    cost_saved := some 19 }

/-- Witness for C1 at concrete inputs: an easy query never reaches the
remote backend; a hard query never reaches the local backend. -/
theorem C1_witness :
    ((route ctx0 lcl0 (some rem0) "What is Python?").2).filter Event.isRemoteGen = [] ∧
    ((route ctx0 lcl0 (some rem0) "Prove that the halting problem is undecidable").2).filter
        Event.isLocalGen = [] :=
  ⟨(C1_difficulty_thresholds_gate_backends ctx0 lcl0 (some rem0) "What is Python?").1
     (by decide),
   (C1_difficulty_thresholds_gate_backends ctx0 lcl0 (some rem0)
     "Prove that the halting problem is undecidable").2 (by decide)⟩

/-- Witness for C2: a hard query with no remote backend raises; a failing
medium query with no remote backend returns the local result with zero
savings. -/
theorem C2_witness :
    isErr (route ctx0 lcl0 none "Prove that the halting problem is undecidable").1 = true ∧
    ((route ctx0 lcl0 none "Explain and compare recursion with iteration").1).toOption.map
        (fun r => (r.text, r.routing_decision, r.cost_saved_usd))
      = some ((localLoop ctx0 lcl0 "Explain and compare recursion with iteration"
            (estimate "Explain and compare recursion with iteration") 256 1).1.text,
          some "local", some 0.0) :=
  ⟨(C2_config_error_iff_hard_without_remote ctx0 lcl0 none
      "Prove that the halting problem is undecidable").1.mpr ⟨by decide, rfl⟩,
   (C2_config_error_iff_hard_without_remote ctx0 lcl0 none
      "Explain and compare recursion with iteration").2 (by decide) (by decide) rfl
      (by decide)⟩

/-- Witness for C3: a medium query whose answer is flagged only for low
relevance still passes verification. -/
theorem C3_witness :
    (verify ctx0 "Something completely unrelated." 50 256
      (some "Explain and compare recursion with iteration") 0.335).passed = true :=
  (C3_passed_iff_no_fatal_flags ctx0 "Something completely unrelated." 50 256
    (some "Explain and compare recursion with iteration") 0.335).2.2
    (by decide) (by decide) (by decide)

/-- Counterexample for C7 as stated: on a failing medium query with no
remote backend, `route` returns the local result (`text`, token counts and
tag of the local generation) with `cost_saved_usd = 0`, while the
6-decimal rounding of the estimated remote cost of those tokens is
`0.00125 ≠ 0`. -/
theorem C7_counterexample :
    ((route ctx0 lcl0 none "Explain and compare recursion with iteration").1).toOption.map
        (fun r => (r.text, r.input_tokens, r.output_tokens, r.routing_decision,
          r.cost_saved_usd))
      = some ("It depends.", 100, 50, some "local", some 0.0) ∧
    roundTo 6 (estimated_remote_cost 100 50) = 0.00125 ∧ (0.00125 : ℚ) ≠ 0.0 :=
  ⟨by decide, by decide, by decide⟩

/-- Witness for C7 on the easy path: `cost_usd = 0` and `cost_saved_usd`
is the rounded estimated remote cost, so their sum is that cost. -/
theorem C7_witness :
    (route ctx0 lcl0 (some rem0) "What is Python?").1 = Except.ok easyRouteResult ∧
    easyRouteResult.cost_usd = some 0.0 ∧
    easyRouteResult.cost_saved_usd
      = some (roundTo 6 (estimated_remote_cost easyRouteResult.input_tokens
          easyRouteResult.output_tokens)) ∧
    easyRouteResult.cost_usd.getD 0 + easyRouteResult.cost_saved_usd.getD 0
      = roundTo 6 (estimated_remote_cost easyRouteResult.input_tokens
          easyRouteResult.output_tokens) :=
  have h : (route ctx0 lcl0 (some rem0) "What is Python?").1 = Except.ok easyRouteResult :=
    by rfl
  ⟨h, (C7_cost_accounting ctx0 lcl0 (some rem0) "What is Python?").2.1 (by decide)
    easyRouteResult h⟩

/-- Counterexample for C8 as stated: appending the HARD keyword `why` to a
5-word hard query lowers the difficulty (the length score drops from its
5-word floor to the 6-word interpolation). -/
theorem C8_counterexample :
    "why" ∈ HARD_KEYWORDS ∧
    estimate ("Why is this so? Explain." ++ " " ++ "why")
      < estimate "Why is this so? Explain." :=
  ⟨by decide, by decide⟩

/-- Witness for C8 (amended) at a concrete input. -/
theorem C8_witness :
    0.6 ≤ estimate ("What is Python?" ++ " " ++ "prove") ∧
    estimate "What is Python?" ≤ estimate ("What is Python?" ++ " " ++ "prove") :=
  have h := C8_hard_keyword_floor "What is Python?" "prove" (by decide)
  ⟨h.1, h.2 (by decide)⟩

/-- Witness for C9 at a concrete input. -/
theorem C9_witness :
    (∃ dec, easyRouteResult.routing_decision = some dec ∧
      (dec = "local" ∨ dec = "repaired" ∨ dec = "escalated" ∨ dec = "remote")) ∧
    easyRouteResult.cost_usd.isSome = true ∧
    easyRouteResult.cost_saved_usd.isSome = true :=
  C9_result_always_tagged_and_costed ctx0 lcl0 (some rem0) "What is Python?"
    (fun b hb p t => by cases hb; rfl) easyRouteResult (by rfl)

/-- Witness for C10 at a concrete input: the escalated call is last in the
trace, carries no budget argument, and the returned fields are those of
the remote generation at the 256-token default. -/
theorem C10_witness :
    (route ctx0 lcl0 (some rem0) "Explain and compare recursion with iteration").2
      = (localLoop ctx0 lcl0 "Explain and compare recursion with iteration"
          (estimate "Explain and compare recursion with iteration") 256 1).2.2.2
        ++ [Event.genRemote "Explain and compare recursion with iteration" none] ∧
    ((route ctx0 lcl0 (some rem0) "Explain and compare recursion with iteration").1).toOption.map
        (fun r => (r.text, r.input_tokens, r.output_tokens, r.routing_decision))
      = some ((rem0.gen "Explain and compare recursion with iteration" 256).text,
          (rem0.gen "Explain and compare recursion with iteration" 256).input_tokens,
          (rem0.gen "Explain and compare recursion with iteration" 256).output_tokens,
          some "escalated") :=
  C10_escalation_uses_default_budget_and_skips_verification ctx0 lcl0 rem0
    "Explain and compare recursion with iteration" rfl (by decide) (by decide) (by decide)

end ConcreteEvaluation

end LLMRouterSpec
